import Mathlib

/-!
Shallow embedding of the per-account settlement engine in `src/account.ts` of
`ilp-plugin-ethereum-asym-server` (EthereumAccount), together with proofs about
its claim-validation, claim-signing, balance-accounting and channel-claiming
logic.

Conventions of the embedding:
* `BigNumber` values are embedded as `Int`; every quantity handled by the code
  is an integer number of wei or gwei.
* The sign-based predicates of bignumber.js are embedded exactly:
  `isPositive()` is true for zero (zero produced by the code's arithmetic has
  positive sign), `isNegative()` is false for zero.
* External I/O (chain lookups `fetchChannel` / `updateChannel`, the
  `dataHandler` / `moneyHandler` callbacks, the gas oracle, the BTP transport)
  is passed in as explicit parameters or recorded in the result, so each
  reducer of the source becomes a pure function on explicit state.
-/

namespace IlpEthereum

/-- One gwei in wei: 10^9. -/
def GWEI : Int := 1000000000

/-- bignumber.js `isPositive()`: true iff the sign is positive. In bignumber.js
(v7, default rounding mode) zero produced by `minus`/`plus`/`min` has positive
sign, so this is `0 ≤ x`. -/
def bnIsPositive (x : Int) : Bool := decide (0 ≤ x)

/-- bignumber.js `isNegative()`: true iff the sign is negative; false at zero. -/
def bnIsNegative (x : Int) : Bool := decide (x < 0)

/-- `convert(gwei(x), wei())` from `@kava-labs/crypto-rate-utils`: scale by 10^9. -/
def gweiToWei (x : Int) : Int := x * GWEI

/-- `convert(wei(x), gwei()).decimalPlaces(0, BigNumber.ROUND_DOWN)` (also written
`.dp(0, ROUND_DOWN)` in the source): divide by 10^9 rounding toward zero, which
is truncating division on `Int`. -/
def weiToGweiRoundDown (x : Int) : Int := Int.tdiv x GWEI

/-- `PaymentChannel` from `src/utils/contract` as consumed by `account.ts`:
on-chain channel data plus the best known claim (`spent`, `signature`).
`ClaimablePaymentChannel` is the same shape with `signature` present. -/
structure PaymentChannel where
  channelId : String
  contractAddress : String
  sender : String
  receiver : String
  value : Int
  disputePeriod : Int
  disputedUntil : Option Int
  spent : Int
  signature : Option String
deriving DecidableEq, Repr

/-- `SerializedClaim`: the wire-level Machinomy claim after JSON schema check,
with `value` parsed as a big integer. -/
structure SerializedClaim where
  channelId : String
  contractAddress : String
  value : Int
  signature : String
deriving DecidableEq, Repr

/-- Modelled from the spec: `remainingInChannel` lives in `src/utils/contract`,
which is not among the given sources. Spec section 4.4: remaining capacity is
`value − spent`. -/
def remainingInChannel (c : PaymentChannel) : Int := c.value - c.spent

/-- Modelled from the spec: `spentFromChannel` lives in `src/utils/contract`,
which is not among the given sources. It is the channel's last signed `spent`
value (spec section 3). -/
def spentFromChannel (c : PaymentChannel) : Int := c.spent

/-- Modelled from the spec: `isDisputed` lives in `src/utils/contract`, which is
not among the given sources. Spec section 4.6: a channel is disputed when
`disputedUntil` is set and not yet elapsed at the current block height. -/
def isDisputed (currentBlock : Int) (c : PaymentChannel) : Bool :=
  match c.disputedUntil with
  | none => false
  | some d => decide (currentBlock < d)

/-- JavaScript `String.prototype.toLowerCase()` as used for the
case-insensitive address comparisons, embedded character-wise. -/
def lowercase (s : String) : String := String.mk (s.data.map Char.toLower)

/-- `amount || BigNumber.max(0, this.account.payableBalance)` in `sendMoney`
(account.ts line 465): the amount to send is the given amount, or
`max(0, payableBalance)` when no amount was passed. -/
def amountToSendOf (amount : Option Int) (payableBalance : Int) : Int :=
  match amount with
  | some a => a
  | none => max 0 payableBalance

/-- `signClaim` (account.ts lines 538-564): return the channel with
`spent := value` and a fresh signature over the claim digest. The
keccak/secp256k1 signing primitive is an external collaborator (spec
section 1); it is abstracted as the function `sigOf` from the signed value to
the signature bytes. -/
def signClaim (sigOf : Int → String) (value : Int)
    (cachedChannel : PaymentChannel) : PaymentChannel :=
  { cachedChannel with spent := value, signature := some (sigOf value) }

/-- Result of one `sendMoney` reducer run (account.ts lines 457-536): the
balances after the reduction, the value the reducer returns for the outgoing
channel cell, and the claim handed to `sendClaim`, if any. -/
structure SendMoneyResult where
  payableBalance : Int
  payoutAmount : Int
  channel : Option PaymentChannel
  sentClaim : Option PaymentChannel
deriving DecidableEq, Repr

/-- The `sendMoney` reducer over the cached outgoing channel (account.ts lines
457-536), with the balances made explicit state. Mirrors the source order:
add `amountToSend` to `payoutAmount`, convert to wei as the settlement budget,
return early when there is no channel, when `remainingInChannel` is not
positive (bignumber sign: zero passes), or when the budget is not positive;
otherwise sign a claim for `spent + min(remaining, budget)`, send it, and
update `payableBalance` and `payoutAmount` by the increment floored to gwei. -/
def sendMoney (sigOf : Int → String) (amount : Option Int)
    (payableBalance payoutAmount : Int)
    (cachedChannel : Option PaymentChannel) : SendMoneyResult :=
  let amountToSend := amountToSendOf amount payableBalance
  let payoutAmount1 := payoutAmount + amountToSend
  let settlementBudget := gweiToWei payoutAmount1
  match cachedChannel with
  | none => ⟨payableBalance, payoutAmount1, none, none⟩
  | some cached =>
    if ¬ bnIsPositive (remainingInChannel cached) then
      ⟨payableBalance, payoutAmount1, some cached, none⟩
    else if ¬ bnIsPositive settlementBudget then
      ⟨payableBalance, payoutAmount1, some cached, none⟩
    else
      let claimIncrement := min (remainingInChannel cached) settlementBudget
      let value := spentFromChannel cached + claimIncrement
      let updatedChannel := signClaim sigOf value cached
      let claimIncrementGwei := weiToGweiRoundDown claimIncrement
      ⟨payableBalance - claimIncrementGwei,
        min 0 (payoutAmount1 - claimIncrementGwei),
        some updatedChannel, some updatedChannel⟩

/-- Per-plugin configuration consumed by `validateClaim`: the contract address,
our own Ethereum address, the dispute-period floor, this account's name, and
`isValidClaimSignature` (external secp256k1 recovery, abstracted as a
predicate on the claim and the on-chain channel). -/
structure ValidateEnv where
  contractAddress : String
  ourAddress : String
  minIncomingDisputePeriod : Int
  accountName : String
  sigValid : SerializedClaim → PaymentChannel → Bool

/-- The `shouldFetchChannel` / `updatedChannel` selection of `validateClaim`
(account.ts lines 748-754): fetch the channel from chain exactly when no
channel was cached or `claim.value > cached.value` (a possible on-chain
deposit); otherwise reuse the cached view. -/
def fetchedChannel (cachedChannel chainChannel : Option PaymentChannel)
    (claimValue : Int) : Option PaymentChannel :=
  match cachedChannel with
  | none => chainChannel
  | some c => if c.value < claimValue then chainChannel else some c

/-- Result of one `validateClaim` reducer run (account.ts lines 737-933): the
value returned for the incoming channel cell, the receivable balance after the
run, the list of amounts (gwei) the `moneyHandler` was invoked with, the store
entry under `<channelId>:incoming-channel` after the run, and whether the
reducer took a retry path (`delay(500)` then recursion with `attempts + 1`). -/
structure ValidateClaimResult where
  channel : Option PaymentChannel
  receivableBalance : Int
  moneyHandlerCalls : List Int
  storeEntry : Option String
  retried : Bool
deriving Repr

/-- Shared accounting tail of `validateClaim` (account.ts lines 885-933):
`claimIncrement = min(claim.value, updatedChannel.value) − (cached.spent or 0)`;
`isBestClaim = claimIncrement.isPositive()` (true at zero); return the cached
state unchanged when not best and a cache exists; otherwise, when best, floor
the increment to gwei, debit `receivableBalance` and invoke the
`moneyHandler`, and always return the updated channel carrying the claim. -/
def validateClaimAccounting (claim : SerializedClaim)
    (cached : Option PaymentChannel) (updatedChannel : PaymentChannel)
    (receivableBalance : Int) (storeEntry : Option String) :
    ValidateClaimResult :=
  let claimIncrement :=
    min claim.value updatedChannel.value -
      (match cached with
       | some c => c.spent
       | none => 0)
  let isBestClaim := bnIsPositive claimIncrement
  if ¬ isBestClaim ∧ cached.isSome then
    ⟨cached, receivableBalance, [], storeEntry, false⟩
  else
    let newChannel : PaymentChannel :=
      { updatedChannel with
        channelId := claim.channelId
        contractAddress := claim.contractAddress
        signature := some claim.signature
        spent := claim.value }
    if isBestClaim then
      let amount := weiToGweiRoundDown claimIncrement
      ⟨some newChannel, receivableBalance - amount, [amount], storeEntry, false⟩
    else
      ⟨some newChannel, receivableBalance, [], storeEntry, false⟩

/-- One run of the `validateClaim` reducer (account.ts lines 737-933).
`chainChannel` is the result `fetchChannel` would return for
`claim.channelId` (the chain is an external collaborator); it is consulted
exactly when the source fetches: no cached channel, or `claim.value >
cached.value`. `storeEntry` is the current store value under
`<claim.channelId>:incoming-channel`. Retry paths are flagged, not recursed. -/
def validateClaim (env : ValidateEnv) (claim : SerializedClaim)
    (cachedChannel : Option PaymentChannel)
    (chainChannel : Option PaymentChannel)
    (receivableBalance : Int) (storeEntry : Option String) :
    ValidateClaimResult :=
  let updatedChannel := fetchedChannel cachedChannel chainChannel claim.value
  match cachedChannel with
  | none =>
    match updatedChannel with
    | none =>
      ⟨none, receivableBalance, [], storeEntry, true⟩
    | some updated =>
      if bnIsNegative claim.value then
        ⟨none, receivableBalance, [], storeEntry, false⟩
      else if ¬ lowercase claim.contractAddress = lowercase env.contractAddress then
        ⟨none, receivableBalance, [], storeEntry, false⟩
      else if ¬ env.sigValid claim updated then
        ⟨none, receivableBalance, [], storeEntry, false⟩
      else if ¬ lowercase updated.receiver = lowercase env.ourAddress then
        ⟨none, receivableBalance, [], storeEntry, false⟩
      else if ¬ env.minIncomingDisputePeriod ≤ updated.disputePeriod then
        ⟨none, receivableBalance, [], storeEntry, false⟩
      else
        match storeEntry with
        | some _ =>
          ⟨none, receivableBalance, [], storeEntry, false⟩
        | none =>
          validateClaimAccounting claim none updated receivableBalance
            (some env.accountName)
  | some cached =>
    match updatedChannel with
    | none =>
      ⟨some cached, receivableBalance, [], storeEntry, false⟩
    | some updated =>
      if ¬ claim.value ≤ updated.value then
        ⟨some cached, receivableBalance, [], storeEntry, true⟩
      else if ¬ claim.channelId = cached.channelId then
        ⟨some cached, receivableBalance, [], storeEntry, false⟩
      else if ¬ env.sigValid claim updated then
        ⟨some cached, receivableBalance, [], storeEntry, false⟩
      else
        validateClaimAccounting claim (some cached) updated receivableBalance
          storeEntry

/-- An ILP reply as classified by `isFulfill` / `isReject` after
`deserializeIlpReply`. -/
inductive IlpReplyKind where
  | fulfill
  | reject (code : String)
deriving DecidableEq, Repr

/-- Outcome of invoking the external `dataHandler` on the PREPARE bytes and
deserializing its reply: either a well-formed reply, or an exception thrown by
the handler or by `deserializeIlpReply`. -/
inductive DataHandlerOutcome where
  | reply (r : IlpReplyKind)
  | throws
deriving DecidableEq, Repr

/-- The `ilp` sub-protocol response returned by `handleData`: either the
handler's own reply bytes forwarded back, or a reject synthesized by
`errorToReject` carrying the ILP error code of the thrown error (`F00` for a
generic exception). -/
inductive IlpResponse where
  | handlerReply (r : IlpReplyKind)
  | errorReject (code : String)
deriving DecidableEq, Repr

/-- Result of the `ilp` branch of `handleData`: the receivable balance after
the run and the response returned to the peer. -/
structure HandleIlpResult where
  receivableBalance : Int
  response : IlpResponse
deriving DecidableEq, Repr

/-- The PREPARE admission checks of `handleData` (account.ts lines 669-698):
`F08 AmountTooLargeError` when `amount > maxPacketAmount`; otherwise
`T04 InsufficientLiquidityError` when `receivableBalance + amount >
maxBalance`; otherwise admit with the new balance. Throwing leaves
`receivableBalance` unwritten. -/
def debitPrepare (maxPacketAmount maxBalance receivableBalance amount : Int) :
    Except String Int :=
  if amount > maxPacketAmount then Except.error "F08"
  else
    let newBalance := receivableBalance + amount
    if newBalance > maxBalance then Except.error "T04"
    else Except.ok newBalance

/-- The `ilp` branch of `handleData` (account.ts lines 666-732): admit the
PREPARE, then call the `dataHandler`; credit back the amount when the reply is
a REJECT, keep the debit on FULFILL; every thrown error (admission failure,
handler exception, undeserializable reply) is caught and turned into an
`errorToReject` response, with no balance rollback in the catch. -/
def handleIlp (maxPacketAmount maxBalance receivableBalance amount : Int)
    (outcome : DataHandlerOutcome) : HandleIlpResult :=
  match debitPrepare maxPacketAmount maxBalance receivableBalance amount with
  | Except.error code => ⟨receivableBalance, IlpResponse.errorReject code⟩
  | Except.ok newBalance =>
    match outcome with
    | DataHandlerOutcome.throws =>
      ⟨newBalance, IlpResponse.errorReject "F00"⟩
    | DataHandlerOutcome.reply r =>
      match r with
      | IlpReplyKind.reject _ =>
        ⟨newBalance - amount, IlpResponse.handlerReply r⟩
      | IlpReplyKind.fulfill =>
        ⟨newBalance, IlpResponse.handlerReply r⟩

/-- The parsed payload of an `info` sub-protocol message as seen by
`linkEthereumAddress` (account.ts lines 222-261): JSON parsing may throw, the
`ethereumAddress` field may be missing or not a string, or an address string
is present. -/
inductive InfoPayload where
  | invalidJson
  | noAddressField
  | addr (a : String)
deriving DecidableEq, Repr

/-- `linkEthereumAddress` (account.ts lines 222-261), returning the account's
`ethereumAddress` field after the call. `isAddress` abstracts
`Web3.utils.isAddress`. A parse failure, a missing or non-string field, or an
invalid address leaves the field unchanged; when an address is already linked
the code only distinguishes the equal (case-insensitive) and differing cases
for logging and keeps the linked address in both; only when no address is
linked is the new address stored. -/
def linkEthereumAddress (isAddress : String → Bool)
    (currentAddress : Option String) (info : InfoPayload) : Option String :=
  match info with
  | InfoPayload.invalidJson => currentAddress
  | InfoPayload.noAddressField => currentAddress
  | InfoPayload.addr a =>
    if ¬ isAddress a then currentAddress
    else
      match currentAddress with
      | some current =>
        if lowercase current = lowercase a then some current
        else some current
      | none => some a

/-- Result of one `claimIfProfitable` reducer run (account.ts lines 1002-1126):
the value returned for the incoming channel cell, and whether the claim
transaction was submitted on chain. -/
structure ClaimChannelResult where
  channel : Option PaymentChannel
  txSubmitted : Bool
deriving DecidableEq, Repr

/-- One run of the `claimIfProfitable` reducer (account.ts lines 1002-1126).
`authorizeResult` is `none` when no `authorize` callback was provided, and
`some b` when one was provided and resolved (`b = true`) or rejected.
`updateChannelResult` is the chain refresh of the cached channel;
`postClaimChannel` is what the post-submission refresh loop settles on. With
no callback, the profitability gate aborts when `txFee ≥ spent` of the
refreshed channel, returning it with no transaction submitted. -/
def claimIfProfitable (requireDisputed : Bool) (authorizeResult : Option Bool)
    (currentBlock : Int) (updateChannelResult : Option PaymentChannel)
    (txFee : Int) (postClaimChannel : Option PaymentChannel)
    (cachedChannel : Option PaymentChannel) : ClaimChannelResult :=
  match cachedChannel with
  | none => ⟨none, false⟩
  | some cached =>
    match cached.signature with
    | none => ⟨some cached, false⟩
    | some _ =>
      match updateChannelResult with
      | none => ⟨none, false⟩
      | some updated =>
        if requireDisputed ∧ ¬ isDisputed currentBlock updated then
          ⟨some updated, false⟩
        else
          match authorizeResult with
          | some isAuthorized =>
            if ¬ isAuthorized then ⟨some updated, false⟩
            else ⟨postClaimChannel, true⟩
          | none =>
            if txFee ≥ updated.spent then ⟨some updated, false⟩
            else ⟨postClaimChannel, true⟩

/-- Fixture: plugin configuration for concrete validation runs. The signature
predicate accepts everything; the checks under test are orthogonal to it. -/
def envA : ValidateEnv :=
  ⟨"0xcafe", "0xfeed", 40, "alice", fun _ _ => true⟩

/-- Fixture: an on-chain channel paying to our address `0xfeed`, escrowing
10^12 wei, with nothing spent yet. -/
def chanA : PaymentChannel :=
  ⟨"0x01", "0xcafe", "0xbeef", "0xfeed", 1000000000000, 100, none, 0, none⟩

/-- Fixture: a first claim of value zero on `chanA`. -/
def claimA : SerializedClaim := ⟨"0x01", "0xcafe", 0, "0xs1"⟩

/-- Fixture: an outgoing channel escrowing 100 wei with 40 wei already spent. -/
def chanB : PaymentChannel :=
  ⟨"0x02", "0xcafe", "0xbeef", "0xfeed", 100, 100, none, 40, none⟩

/-- Fixture: an outgoing channel whose escrow is fully spent. -/
def chanC : PaymentChannel :=
  ⟨"0x03", "0xcafe", "0xbeef", "0xfeed", 100, 100, none, 100, none⟩

/-- Fixture: a claim for 5 wei on `chanA`. -/
def claimB : SerializedClaim := ⟨"0x01", "0xcafe", 5, "0xs2"⟩

/-- Fixture: an incoming channel with a linked claim for 100000 wei. -/
def chanD : PaymentChannel :=
  ⟨"0x04", "0xcafe", "0xbeef", "0xfeed", 500000, 100, none, 100000, some "0xs3"⟩

end IlpEthereum

namespace IlpEthereum

/-- Helper: a successful PREPARE admission returns exactly
`receivableBalance + amount`. -/
theorem debitPrepare_ok_eq (maxPacketAmount maxBalance rcv amount nb : Int)
    (hok : debitPrepare maxPacketAmount maxBalance rcv amount = Except.ok nb) :
    nb = rcv + amount := by
  simp only [debitPrepare] at hok
  split at hok
  · cases hok
  · split at hok
    · cases hok
    · cases hok
      rfl

/-- C1: the claim fails on the code; this theorem evaluates the code at the
failing input. A first claim with `value = 0` on a fresh channel has
`claimIncrement = min(claim.value, channel.value) − 0 = 0`, yet the
`moneyHandler` IS invoked, with amount `0`: bignumber.js `isPositive()` is
true at zero, so `isBestClaim` holds and the balance block at account.ts
lines 901-913 runs, contrary to the source's own comment "Only perform
balance operations if the claim increment is positive". The receivable
balance is left numerically unchanged (debited by zero). -/
theorem c1_zero_increment_invokes_money_handler :
    min claimA.value chanA.value - 0 = 0 ∧
    (validateClaim envA claimA none (some chanA) 7 none).moneyHandlerCalls = [0] ∧
    (validateClaim envA claimA none (some chanA) 7 none).receivableBalance = 7 :=
  ⟨by decide, by decide, by decide⟩

/-- C2: the claim fails on the code; this theorem evaluates the code at the
failing input. With `payableBalance = 0` and `payoutAmount = 0` and no
amount argument, the settlement budget is `0`; bignumber.js `isPositive()`
is true at zero, so the guard at account.ts line 487 does not return early,
`claimIncrement = min(remaining, 0) = 0`, and a claim is produced and sent
whose `spent` (40 wei) equals the prior `spent` — not strictly greater,
contrary to the source's own comments "Ensure the claim increment is always
> 0" and "claim increment should always be positive". -/
theorem c2_zero_increment_claim_sent :
    (sendMoney (fun _ => "0xs9") none 0 0 (some chanB)).sentClaim =
      some { chanB with spent := 40, signature := some "0xs9" } ∧
    spentFromChannel chanB = 40 :=
  ⟨rfl, rfl⟩

/-- C5 counterexample: the claim quantifies over every incoming PREPARE, but
when the amount also exceeds `maxPacketAmount` the size check at account.ts
line 672 fires first and the packet is rejected with `F08`, not `T04`:
here `maxPacketAmount = 5`, `maxBalance = 5`, `receivableBalance = 0`,
`amount = 6` satisfies `receivableBalance + amount > maxBalance` yet the
response carries code `F08`. -/
theorem c5_f08_precedes_t04_counterexample :
    (0 : Int) + 6 > 5 ∧
    (handleIlp 5 5 0 6 DataHandlerOutcome.throws).response =
      IlpResponse.errorReject "F08" ∧
    IlpResponse.errorReject "F08" ≠ IlpResponse.errorReject "T04" :=
  ⟨by decide, rfl, by decide⟩

/-- C5 (amended): for every incoming PREPARE of amount `a ≤ maxPacketAmount`:
if `receivableBalance + a > maxBalance` the packet is rejected with a T04
InsufficientLiquidityError and `receivableBalance` is unchanged; if
`receivableBalance + a = maxBalance` the packet is admitted and the
receivable balance is debited to exactly `maxBalance`. -/
theorem c5_admission_boundary (maxPacketAmount maxBalance rcv amount : Int)
    (outcome : DataHandlerOutcome) (hsize : amount ≤ maxPacketAmount) :
    (rcv + amount > maxBalance →
      (handleIlp maxPacketAmount maxBalance rcv amount outcome).receivableBalance
          = rcv ∧
      (handleIlp maxPacketAmount maxBalance rcv amount outcome).response =
        IlpResponse.errorReject "T04") ∧
    (rcv + amount = maxBalance →
      debitPrepare maxPacketAmount maxBalance rcv amount =
        Except.ok maxBalance) := by
  have hno : ¬ amount > maxPacketAmount := not_lt.mpr hsize
  constructor
  · intro hover
    have herr : debitPrepare maxPacketAmount maxBalance rcv amount =
        Except.error "T04" := by
      simp [debitPrepare, hno, hover]
    constructor <;> simp [handleIlp, herr]
  · intro heq
    simp [debitPrepare, hno, heq]

/-- C5 witness: at `maxPacketAmount = 10`, `maxBalance = 5`,
`receivableBalance = 2`, an amount of 4 overshoots the ceiling and is
rejected with T04 leaving the balance at 2, while an amount of 3 lands
exactly on the ceiling and is admitted with new balance 5. -/
theorem c5_admission_boundary_witness :
    (handleIlp 10 5 2 4 DataHandlerOutcome.throws).receivableBalance = 2 ∧
    (handleIlp 10 5 2 4 DataHandlerOutcome.throws).response =
      IlpResponse.errorReject "T04" ∧
    debitPrepare 10 5 2 3 = Except.ok 5 :=
  ⟨((c5_admission_boundary 10 5 2 4 DataHandlerOutcome.throws
      (by decide)).1 (by decide)).1,
   ((c5_admission_boundary 10 5 2 4 DataHandlerOutcome.throws
      (by decide)).1 (by decide)).2,
   (c5_admission_boundary 10 5 2 3 DataHandlerOutcome.throws
      (by decide)).2 (by decide)⟩

/-- C6: for every admitted PREPARE whose `dataHandler` reply deserializes to
a REJECT, the receivable balance is credited back by the amount, returning
it exactly to its value before the PREPARE was admitted. -/
theorem c6_reject_rolls_back_receivable
    (maxPacketAmount maxBalance rcv amount nb : Int) (code : String)
    (hok : debitPrepare maxPacketAmount maxBalance rcv amount = Except.ok nb) :
    (handleIlp maxPacketAmount maxBalance rcv amount
      (DataHandlerOutcome.reply (IlpReplyKind.reject code))).receivableBalance
        = rcv := by
  have hnb := debitPrepare_ok_eq maxPacketAmount maxBalance rcv amount nb hok
  subst hnb
  simp only [handleIlp, hok]
  omega

/-- C6 witness: an admitted PREPARE of 600 against a 1000 ceiling, followed by
a handler REJECT, leaves the receivable balance at its prior value 0. -/
theorem c6_reject_rolls_back_receivable_witness :
    (handleIlp 1000 1000 0 600
      (DataHandlerOutcome.reply (IlpReplyKind.reject "T00"))).receivableBalance
        = 0 :=
  c6_reject_rolls_back_receivable 1000 1000 0 600 600 "T00" rfl

/-- C7: for every admitted PREPARE where the `dataHandler` (or the reply
deserialization) throws, the catch at account.ts lines 723-731 returns a
synthesized reject (code `F00`) but the receivable balance stays debited by
the amount: the exception path performs no rollback. -/
theorem c7_exception_keeps_debit
    (maxPacketAmount maxBalance rcv amount nb : Int)
    (hok : debitPrepare maxPacketAmount maxBalance rcv amount = Except.ok nb) :
    (handleIlp maxPacketAmount maxBalance rcv amount
        DataHandlerOutcome.throws).receivableBalance = rcv + amount ∧
    (handleIlp maxPacketAmount maxBalance rcv amount
        DataHandlerOutcome.throws).response = IlpResponse.errorReject "F00" := by
  have hnb := debitPrepare_ok_eq maxPacketAmount maxBalance rcv amount nb hok
  subst hnb
  constructor <;> simp [handleIlp, hok]

/-- C7 witness: an admitted PREPARE of 600 whose handler throws leaves the
receivable balance debited at 600 and yields a synthesized `F00` reject. -/
theorem c7_exception_keeps_debit_witness :
    (handleIlp 1000 1000 0 600 DataHandlerOutcome.throws).receivableBalance
        = 0 + 600 ∧
    (handleIlp 1000 1000 0 600 DataHandlerOutcome.throws).response =
      IlpResponse.errorReject "F00" :=
  c7_exception_keeps_debit 1000 1000 0 600 600 rfl

/-- Helper: the claim-sending branch of `sendMoney`, as one equation: when a
channel is cached and both sign guards pass, the result is exactly the
updated balances and the signed claim. -/
theorem sendMoney_send_eq (sigOf : Int → String)
    (amount : Option Int) (payableBalance payoutAmount : Int)
    (ch : PaymentChannel) (hrem : 0 ≤ remainingInChannel ch)
    (hbud : 0 ≤ gweiToWei (payoutAmount + amountToSendOf amount payableBalance)) :
    sendMoney sigOf amount payableBalance payoutAmount (some ch) =
      ⟨payableBalance -
          weiToGweiRoundDown (min (remainingInChannel ch)
            (gweiToWei (payoutAmount + amountToSendOf amount payableBalance))),
        min 0 (payoutAmount + amountToSendOf amount payableBalance -
          weiToGweiRoundDown (min (remainingInChannel ch)
            (gweiToWei (payoutAmount + amountToSendOf amount payableBalance)))),
        some (signClaim sigOf
          (spentFromChannel ch +
            min (remainingInChannel ch)
              (gweiToWei (payoutAmount + amountToSendOf amount payableBalance))) ch),
        some (signClaim sigOf
          (spentFromChannel ch +
            min (remainingInChannel ch)
              (gweiToWei (payoutAmount + amountToSendOf amount payableBalance))) ch)⟩ := by
  have h1 : bnIsPositive (remainingInChannel ch) = true := by
    simp [bnIsPositive, hrem]
  have h2 : bnIsPositive
      (gweiToWei (payoutAmount + amountToSendOf amount payableBalance)) = true := by
    simp [bnIsPositive, hbud]
  simp [sendMoney, h1, h2]

/-- Helper: when `remainingInChannel` fails the sign guard, `sendMoney`
returns the cached channel unchanged and sends nothing. -/
theorem sendMoney_no_remaining_eq (sigOf : Int → String)
    (amount : Option Int) (payableBalance payoutAmount : Int)
    (ch : PaymentChannel) (hrem : ¬ 0 ≤ remainingInChannel ch) :
    sendMoney sigOf amount payableBalance payoutAmount (some ch) =
      ⟨payableBalance, payoutAmount + amountToSendOf amount payableBalance,
        some ch, none⟩ := by
  have h1 : bnIsPositive (remainingInChannel ch) = false := by
    simp [bnIsPositive, hrem]
  simp [sendMoney, h1]

/-- Helper: when the settlement budget fails the sign guard, `sendMoney`
returns the cached channel unchanged and sends nothing. -/
theorem sendMoney_no_budget_eq (sigOf : Int → String)
    (amount : Option Int) (payableBalance payoutAmount : Int)
    (ch : PaymentChannel) (hrem : 0 ≤ remainingInChannel ch)
    (hbud : ¬ 0 ≤ gweiToWei (payoutAmount + amountToSendOf amount payableBalance)) :
    sendMoney sigOf amount payableBalance payoutAmount (some ch) =
      ⟨payableBalance, payoutAmount + amountToSendOf amount payableBalance,
        some ch, none⟩ := by
  have h1 : bnIsPositive (remainingInChannel ch) = true := by
    simp [bnIsPositive, hrem]
  have h2 : bnIsPositive
      (gweiToWei (payoutAmount + amountToSendOf amount payableBalance)) = false := by
    simp [bnIsPositive, hbud]
  simp [sendMoney, h1, h2]

/-- C3: whenever `sendMoney` reaches the claim-sending branch (a channel is
cached, `remainingInChannel` and the settlement budget pass the sign guards),
the balances are updated exactly as claimed: `amountToSend` is the given
amount or `max(0, payableBalance)`; `payoutAmount` first grows by
`amountToSend`; the increment is `min(value − spent, payoutAmount in wei)`;
then `payableBalance` shrinks by the increment floored to gwei and
`payoutAmount` is set to `min(0, payoutAmount − increment_gwei)`. -/
theorem c3_send_money_balance_updates (sigOf : Int → String)
    (amount : Option Int) (payableBalance payoutAmount : Int)
    (ch : PaymentChannel) (hrem : 0 ≤ remainingInChannel ch)
    (hbud : 0 ≤ gweiToWei (payoutAmount + amountToSendOf amount payableBalance)) :
    sendMoney sigOf amount payableBalance payoutAmount (some ch) =
      ⟨payableBalance -
          weiToGweiRoundDown (min (remainingInChannel ch)
            (gweiToWei (payoutAmount + amountToSendOf amount payableBalance))),
        min 0 (payoutAmount + amountToSendOf amount payableBalance -
          weiToGweiRoundDown (min (remainingInChannel ch)
            (gweiToWei (payoutAmount + amountToSendOf amount payableBalance)))),
        some (signClaim sigOf
          (spentFromChannel ch +
            min (remainingInChannel ch)
              (gweiToWei (payoutAmount + amountToSendOf amount payableBalance))) ch),
        some (signClaim sigOf
          (spentFromChannel ch +
            min (remainingInChannel ch)
              (gweiToWei (payoutAmount + amountToSendOf amount payableBalance))) ch)⟩ :=
  sendMoney_send_eq sigOf amount payableBalance payoutAmount ch hrem hbud

/-- C3 witness: with `payableBalance = 5` gwei, `payoutAmount = 0`, no amount
argument, and a channel escrowing 100 wei with 40 spent: the budget is
5·10^9 wei, the increment is the remaining 60 wei, the claim is signed at
`spent = 100`, the increment floors to 0 gwei, so `payableBalance` stays 5
and `payoutAmount` becomes `min(0, 5) = 0`. -/
theorem c3_send_money_balance_updates_witness :
    sendMoney (fun _ => "0xs9") none 5 0 (some chanB) =
      ⟨5, 0, some { chanB with spent := 100, signature := some "0xs9" },
        some { chanB with spent := 100, signature := some "0xs9" }⟩ := by
  exact c3_send_money_balance_updates (fun _ => "0xs9") none 5 0 chanB
    (by decide) (by decide)

/-- C8: after any successful `sendMoney` reduction on an outgoing channel that
satisfies `0 ≤ spent ≤ value`, the returned channel still satisfies
`0 ≤ spent ≤ value`: in the sending branch the new `spent` is the old one
plus `min(value − spent, budget)`, and both arguments of `min` have passed
the non-negativity sign guards. -/
theorem c8_spent_within_channel_value (sigOf : Int → String)
    (amount : Option Int) (payableBalance payoutAmount : Int)
    (ch : PaymentChannel) (hlo : 0 ≤ ch.spent) (hhi : ch.spent ≤ ch.value)
    (c : PaymentChannel)
    (hc : (sendMoney sigOf amount payableBalance payoutAmount (some ch)).channel
        = some c) :
    0 ≤ c.spent ∧ c.spent ≤ c.value := by
  by_cases hrem : 0 ≤ remainingInChannel ch
  · by_cases hbud :
        0 ≤ gweiToWei (payoutAmount + amountToSendOf amount payableBalance)
    · rw [sendMoney_send_eq sigOf amount payableBalance payoutAmount ch hrem hbud]
        at hc
      simp only [Option.some.injEq] at hc
      subst hc
      constructor
      · exact add_nonneg hlo (le_min hrem hbud)
      · have h3 : min (remainingInChannel ch)
            (gweiToWei (payoutAmount + amountToSendOf amount payableBalance)) ≤
            ch.value - ch.spent := min_le_left _ _
        show ch.spent + min (remainingInChannel ch)
            (gweiToWei (payoutAmount + amountToSendOf amount payableBalance)) ≤
            ch.value
        linarith
    · rw [sendMoney_no_budget_eq sigOf amount payableBalance payoutAmount ch
        hrem hbud] at hc
      simp only [Option.some.injEq] at hc
      subst hc
      exact ⟨hlo, hhi⟩
  · rw [sendMoney_no_remaining_eq sigOf amount payableBalance payoutAmount ch
      hrem] at hc
    simp only [Option.some.injEq] at hc
    subst hc
    exact ⟨hlo, hhi⟩

/-- C8 witness: starting from a channel with `spent = 40 ≤ value = 100` and a
budget of 5 gwei, the reduction returns the channel signed at `spent = 100`,
which still satisfies `0 ≤ spent ≤ value`. -/
theorem c8_spent_within_channel_value_witness :
    0 ≤ (100 : Int) ∧ (100 : Int) ≤ 100 := by
  have h := c8_spent_within_channel_value (fun _ => "0xs9") none 5 0 chanB
    (by decide) (by decide)
    { chanB with spent := 100, signature := some "0xs9" } (by decide)
  exact h

/-- Helper: the accounting tail of `validateClaim` never touches the store
entry it is handed. -/
theorem validateClaimAccounting_storeEntry (claim : SerializedClaim)
    (cached : Option PaymentChannel) (updated : PaymentChannel)
    (rcv : Int) (se : Option String) :
    (validateClaimAccounting claim cached updated rcv se).storeEntry = se := by
  simp only [validateClaimAccounting]
  split
  · rfl
  · split
    · rfl
    · rfl

/-- C4: with no cached channel, `validateClaim` keeps the store key
`<channelId>:incoming-channel` pointing to at most one account: when the key
already holds an account name the claim is rejected (the reducer returns no
channel) and the entry is untouched, and the only write the reducer ever
makes stores its own account name into a previously absent entry. -/
theorem c4_channel_linked_to_single_account (env : ValidateEnv)
    (claim : SerializedClaim) (chainChannel : Option PaymentChannel)
    (rcv : Int) (se : Option String) :
    (∀ s, se = some s →
      (validateClaim env claim none chainChannel rcv se).storeEntry = some s ∧
      (validateClaim env claim none chainChannel rcv se).channel = none) ∧
    ((validateClaim env claim none chainChannel rcv se).storeEntry ≠ se →
      se = none ∧
      (validateClaim env claim none chainChannel rcv se).storeEntry =
        some env.accountName) := by
  have key : ((validateClaim env claim none chainChannel rcv se).storeEntry = se ∧
        (∀ s, se = some s →
          (validateClaim env claim none chainChannel rcv se).channel = none)) ∨
      (se = none ∧
        (validateClaim env claim none chainChannel rcv se).storeEntry =
          some env.accountName) := by
    cases chainChannel with
    | none =>
      left
      exact ⟨rfl, fun s _ => rfl⟩
    | some updated =>
      cases se with
      | some s =>
        left
        simp only [validateClaim, fetchedChannel]
        split_ifs <;> simp
      | none =>
        simp only [validateClaim, fetchedChannel]
        split_ifs <;> simp [validateClaimAccounting_storeEntry]
  constructor
  · intro s hs
    rcases key with ⟨h1, h2⟩ | ⟨h1, _⟩
    · exact ⟨hs ▸ h1, h2 s hs⟩
    · exact absurd (h1 ▸ hs) (by simp)
  · intro hne
    rcases key with ⟨h1, _⟩ | ⟨h1, h2⟩
    · exact absurd h1 hne
    · exact ⟨h1, h2⟩

/-- C4 witness: a concrete claim on a fresh channel whose store key already
maps to account `bob` is rejected and the entry still maps to `bob`. -/
theorem c4_channel_linked_to_single_account_witness :
    (validateClaim envA claimB none (some chanA) 0 (some "bob")).storeEntry =
      some "bob" ∧
    (validateClaim envA claimB none (some chanA) 0 (some "bob")).channel = none :=
  (c4_channel_linked_to_single_account envA claimB (some chanA) 0
    (some "bob")).1 "bob" rfl

/-- C9: once an Ethereum address is linked, `linkEthereumAddress` never
changes it — a differing incoming address (even case-insensitively), an
equal one, an invalid one, or a malformed payload all leave the linked
address in place — and the field is only ever set when it was previously
absent, to a syntactically valid address carried by the payload. -/
theorem c9_ethereum_address_immutable (isAddress : String → Bool)
    (currentAddress : Option String) (info : InfoPayload) :
    (∀ a, currentAddress = some a →
      linkEthereumAddress isAddress currentAddress info = some a) ∧
    (linkEthereumAddress isAddress currentAddress info ≠ currentAddress →
      currentAddress = none ∧
      ∃ s, info = InfoPayload.addr s ∧ isAddress s = true ∧
        linkEthereumAddress isAddress currentAddress info = some s) := by
  cases info with
  | invalidJson => simp [linkEthereumAddress]
  | noAddressField => simp [linkEthereumAddress]
  | addr a =>
    by_cases hv : isAddress a = true
    · cases currentAddress with
      | none =>
        constructor
        · intro b hb
          cases hb
        · intro _
          exact ⟨rfl, a, rfl, hv, by simp [linkEthereumAddress, hv]⟩
      | some cur =>
        have hres : linkEthereumAddress isAddress (some cur)
            (InfoPayload.addr a) = some cur := by
          simp [linkEthereumAddress, hv]
        constructor
        · intro b hb
          rw [hres]
          exact hb
        · intro hne
          exact absurd hres hne
    · have hres : linkEthereumAddress isAddress currentAddress
          (InfoPayload.addr a) = currentAddress := by
        simp [linkEthereumAddress, hv]
      constructor
      · intro b hb
        rw [hres, hb]
      · intro hne
        exact absurd hres hne

/-- C9 witness: with address `0xfeed` already linked, an incoming valid but
different address `0xbeef` leaves `0xfeed` linked. -/
theorem c9_ethereum_address_immutable_witness :
    linkEthereumAddress (fun _ => true) (some "0xfeed")
      (InfoPayload.addr "0xbeef") = some "0xfeed" :=
  (c9_ethereum_address_immutable (fun _ => true) (some "0xfeed")
    (InfoPayload.addr "0xbeef")).1 "0xfeed" rfl

/-- C10: when no `authorize` callback is provided and the estimated fee is at
least the channel's `spent`, `claimIfProfitable` submits no claim
transaction and returns the (unchanged, per the S6 scenario where the chain
refresh reproduces the cached channel) channel state. -/
theorem c10_unprofitable_claim_aborts (requireDisputed : Bool)
    (currentBlock txFee : Int) (postClaimChannel : Option PaymentChannel)
    (cached : PaymentChannel) (hfee : cached.spent ≤ txFee) :
    claimIfProfitable requireDisputed none currentBlock (some cached) txFee
        postClaimChannel (some cached) = ⟨some cached, false⟩ := by
  cases hsig : cached.signature with
  | none => simp [claimIfProfitable, hsig]
  | some s =>
    simp only [claimIfProfitable, hsig]
    split_ifs <;> simp_all

/-- C10 witness: the S6 scenario — `spent = 100000` wei, `fee = 200000` wei,
no authorize callback: no transaction is submitted and the cached channel
is returned unchanged. -/
theorem c10_unprofitable_claim_aborts_witness :
    claimIfProfitable false none 0 (some chanD) 200000 none (some chanD) =
      ⟨some chanD, false⟩ :=
  c10_unprofitable_claim_aborts false 0 200000 none chanD (by decide)

end IlpEthereum
